import Mathlib

/-!
Verification of `src/website/src/pages/home_page_example.py` from apify/crawlee.

The file is a 37-line example script: it constructs a `PlaywrightCrawler` with
three keyword arguments, registers one default request handler, runs the crawler
on a single seed URL, exports the dataset to `results.json`, and reads the
dataset back.  The crawlee/Playwright library itself is not part of the source;
where a claim depends on library behaviour, the corresponding definition is
modelled from the spec and marked as such in its doc comment.

Python strings are embedded as `List Char` (one entry per code point), so that
the slice `s[:100]` is `List.take 100`.
-/

namespace HomePageExample

/-- Characters of a Python `str`, one entry per code point. -/
abbrev Str := List Char

/-- The values the Playwright browser API returns for one crawled page:
`context.request.url`, `await context.page.title()`, and
`await context.page.content()`. -/
structure PageEnv where
  url : Str
  title : Str
  content : Str
deriving DecidableEq, Repr

/-- A record pushed to the dataset: the Python dict literal of the handler,
kept as key/value pairs in insertion order. -/
abbrev Record := List (String × Str)

/-- The externally-delegated operations the request handler performs, plus the
log call. -/
inductive HandlerOp where
  | logInfo (msg : Str)
  | enqueueLinks
  | getTitle
  | getContent
  | pushData (rec : Record)
deriving DecidableEq, Repr

/-- The dict literal built in the handler (source lines 20-24):
`{'url': context.request.url, 'title': await context.page.title(),
'content': (await context.page.content())[:100]}`. -/
def extractedData (env : PageEnv) : Record :=
  [("url", env.url), ("title", env.title), ("content", env.content.take 100)]

/-- The request handler (source lines 13-27), embedded as the sequence of
external calls it performs, in program order.  Each `await`ed browser call
returns the corresponding field of `env`; the dict literal evaluates its
values left to right (url, then title, then content). -/
def request_handler (env : PageEnv) : List HandlerOp :=
  -- context.log.info(f'Processing {context.request.url} ...')
  let t1 : List HandlerOp := [.logInfo ("Processing ".data ++ env.url ++ " ...".data)]
  -- await context.enqueue_links()
  let t2 := t1 ++ [.enqueueLinks]
  -- data = {'url': ..., 'title': await context.page.title(),
  --         'content': (await context.page.content())[:100]}
  let t3 := t2 ++ [.getTitle]
  let t4 := t3 ++ [.getContent]
  let data := extractedData env
  -- await context.push_data(data)
  t4 ++ [.pushData data]

/-- The records submitted by a trace of handler operations. -/
def pushedRecords (t : List HandlerOp) : List Record :=
  t.filterMap fun op =>
    match op with
    | .pushData r => some r
    | _ => none

/-- Whether a handler operation is delegated to the external library
(everything except the log call). -/
def isDelegated : HandlerOp → Bool
  | .logInfo _ => false
  | _ => true

/-- Whether a handler operation is an externally-delegated write
(record submission). -/
def isDelegatedWrite : HandlerOp → Bool
  | .pushData _ => true
  | _ => false

/-- One keyword argument of the `PlaywrightCrawler(...)` call.  `other` stands
for any keyword argument the script could have supplied but does not. -/
inductive CrawlerArg where
  | max_requests_per_crawl (n : Nat)
  | headless (b : Bool)
  | browser_type (s : String)
  | other (name : String)
deriving DecidableEq, Repr

/-- The keyword name of a crawler argument. -/
def argName : CrawlerArg → String
  | .max_requests_per_crawl _ => "max_requests_per_crawl"
  | .headless _ => "headless"
  | .browser_type _ => "browser_type"
  | .other n => n

/-- The keyword arguments passed to `PlaywrightCrawler(...)` in `main`
(source lines 5-9), in source order. -/
def crawlerArgs : List CrawlerArg :=
  [.max_requests_per_crawl 5, .headless false, .browser_type "firefox"]

/-- The crawler configuration held after construction. -/
structure PlaywrightCrawlerConfig where
  max_requests_per_crawl : Nat
  headless : Bool
  browser_type : String
deriving DecidableEq, Repr

/-- The configuration the script constructs the crawler with. -/
def mainConfig : PlaywrightCrawlerConfig :=
  { max_requests_per_crawl := 5, headless := false, browser_type := "firefox" }

/-- The seed URL list passed to `crawler.run` (source line 30). -/
def seedUrls : List Str := ["https://crawlee.dev".data]

/-- The top-level steps of `main`, in program order. -/
inductive MainOp where
  | constructCrawler (args : List CrawlerArg)
  | registerDefaultHandler
  | runCrawler (seeds : List Str)
  | exportData (path : String)
  | getData
  | logExtracted
deriving DecidableEq, Repr

/-- Whether a main step is the registration of a request handler. -/
def isHandlerRegistration : MainOp → Bool
  | .registerDefaultHandler => true
  | _ => false

/-- The body of `main` (source lines 4-37) as its sequence of top-level steps:
construct the crawler, register the default handler via the decorator, await
`crawler.run`, await `crawler.export_data`, await `crawler.get_data`, then log.
List position encodes execution order: each `await` completes before the next
step starts. -/
def mainTrace : List MainOp :=
  [ .constructCrawler crawlerArgs
  , .registerDefaultHandler
  , .runCrawler seedUrls
  , .exportData "results.json"
  , .getData
  , .logExtracted ]

/-- Modelled from the spec: the crawlee library's crawl loop is not in the
source.  Per the spec, "the handler is invoked once per crawled page"; `pages`
is the sequence of pages the library crawls starting from the seeds, and each
invocation is the handler's trace on that page. -/
def handlerInvocations (pages : List PageEnv) : List (List HandlerOp) :=
  pages.map request_handler

/-- Modelled from the spec: the dataset collects, in order, every record the
handler submits during the crawl ("an output collection of such records, owned
and persisted entirely by the external library"). -/
def runCrawl (pages : List PageEnv) : List Record :=
  (handlerInvocations pages).flatMap pushedRecords

/-- The state the script manipulates through the library: the crawler's
configuration, the default dataset, and the exported files. -/
structure ScriptState where
  config : PlaywrightCrawlerConfig
  dataset : List Record
  exportedFiles : List (String × List Record)
deriving DecidableEq, Repr

/-- The state just after `crawler = PlaywrightCrawler(...)` (source lines 5-9). -/
def stateAfterConstruct : ScriptState :=
  { config := mainConfig, dataset := [], exportedFiles := [] }

/-- Modelled from the spec: the state after `await crawler.run([...])`; the
library appends the records pushed during the crawl to the dataset and touches
nothing else visible here. -/
def stateAfterRun (pages : List PageEnv) : ScriptState :=
  { stateAfterConstruct with
      dataset := stateAfterConstruct.dataset ++ runCrawl pages }

/-- Modelled from the spec: the state after
`await crawler.export_data('results.json')`; the export writes the current
dataset to the named file. -/
def stateAfterExport (pages : List PageEnv) : ScriptState :=
  { stateAfterRun pages with
      exportedFiles :=
        (stateAfterRun pages).exportedFiles
          ++ [("results.json", (stateAfterRun pages).dataset)] }

/-- Modelled from the spec: `await crawler.get_data()` reads the dataset back
without changing any state. -/
def getData (s : ScriptState) : List Record := s.dataset

/-- The states `main` passes through after each library call, in order. -/
def mainStates (pages : List PageEnv) : List ScriptState :=
  [stateAfterConstruct, stateAfterRun pages, stateAfterExport pages]

/-! ### Exception propagation

The script contains no `try`/`except`; every external library call is `await`ed
directly.  To state this semantically, each external call is given a result in
`Except Exn`, supplied by an oracle, and the handler and `main` are the
straight monadic translation of the source. -/

/-- An opaque Python exception. -/
inductive Exn where
  | mk (msg : String)
deriving DecidableEq, Repr

/-- Results of the external library calls the script makes.  Calls made inside
the handler depend on the page being processed; `push_data` may fail depending
on the record; `export_data` and `get_data` on the dataset contents. -/
structure Oracle where
  construct : Except Exn Unit
  enqueue_links : PageEnv → Except Exn Unit
  title : PageEnv → Except Exn Str
  content : PageEnv → Except Exn Str
  push_data : Record → Except Exn Unit
  export_data : List Record → Except Exn Unit
  get_data : List Record → Except Exn (List Record)

/-- The request handler (source lines 13-27) translated into `Except`: the
first failing call aborts the handler with that exception, since the handler
body has no error-handling construct.  On success it yields the record it
pushed. -/
def request_handlerE (o : Oracle) (env : PageEnv) : Except Exn Record := do
  -- await context.enqueue_links()
  o.enqueue_links env
  -- the dict literal awaits page.title() then page.content()
  let title ← o.title env
  let content ← o.content env
  let data : Record := [("url", env.url), ("title", title), ("content", content.take 100)]
  -- await context.push_data(data)
  o.push_data data
  pure data

/-- Modelled from the spec: the library's run loop invokes the handler once per
crawled page; the spec records no error handling in the excerpt, so an
exception escaping a handler invocation escapes the run.  Yields the records
pushed, in crawl order. -/
def runE (o : Oracle) : List PageEnv → Except Exn (List Record)
  | [] => pure []
  | env :: rest => do
    let r ← request_handlerE o env
    let rs ← runE o rest
    pure (r :: rs)

/-- `main` (source lines 4-37) translated into `Except`: construction, run,
export and data read in sequence, each `await`ed with no surrounding
error-handling construct. -/
def mainE (o : Oracle) (pages : List PageEnv) : Except Exn Unit := do
  -- crawler = PlaywrightCrawler(...)
  o.construct
  -- the decorator registers the handler locally; no external call
  -- await crawler.run(['https://crawlee.dev'])
  let recs ← runE o pages
  -- await crawler.export_data('results.json')
  o.export_data recs
  -- data = await crawler.get_data()
  let _data ← o.get_data recs
  pure ()

/-- `e` is an exception some external call of the oracle actually raises. -/
def OracleRaises (o : Oracle) (e : Exn) : Prop :=
  o.construct = .error e
    ∨ (∃ env, o.enqueue_links env = .error e)
    ∨ (∃ env, o.title env = .error e)
    ∨ (∃ env, o.content env = .error e)
    ∨ (∃ r, o.push_data r = .error e)
    ∨ (∃ d, o.export_data d = .error e)
    ∨ (∃ d, o.get_data d = .error e)

/-- No external call of the oracle raises. -/
def OracleOk (o : Oracle) : Prop :=
  (∃ u, o.construct = .ok u)
    ∧ (∀ env, ∃ u, o.enqueue_links env = .ok u)
    ∧ (∀ env, ∃ t, o.title env = .ok t)
    ∧ (∀ env, ∃ c, o.content env = .ok c)
    ∧ (∀ r, ∃ u, o.push_data r = .ok u)
    ∧ (∀ d, ∃ u, o.export_data d = .ok u)
    ∧ (∀ d, ∃ ds, o.get_data d = .ok ds)

/-- A concrete oracle whose only failing call is `page.title()`. -/
def errTitleOracle : Oracle where
  construct := .ok ()
  enqueue_links := fun _ => .ok ()
  title := fun _ => .error (.mk "boom")
  content := fun _ => .ok []
  push_data := fun _ => .ok ()
  export_data := fun _ => .ok ()
  get_data := fun d => .ok d

/-- A concrete oracle none of whose calls fail. -/
def okOracle : Oracle :=
  { errTitleOracle with title := fun _ => .ok [] }

/-! ## Helper lemmas -/

/-- Each handler invocation submits exactly the one extracted record. -/
theorem pushedRecords_handler (env : PageEnv) :
    pushedRecords (request_handler env) = [extractedData env] := rfl

/-- The dataset produced by a crawl is one extracted record per crawled page. -/
theorem runCrawl_eq_map (pages : List PageEnv) :
    runCrawl pages = pages.map extractedData := by
  induction pages with
  | nil => rfl
  | cons env rest ih =>
      simp [runCrawl, handlerInvocations, pushedRecords_handler] at ih ⊢
      exact ih

/-- Case analysis for a failing `Except` bind: either the first action failed
with that exception, or it succeeded and the continuation failed with it. -/
theorem bind_error_cases {α β : Type} (x : Except Exn α) (f : α → Except Exn β)
    (e : Exn) (h : x >>= f = Except.error e) :
    x = Except.error e ∨ ∃ a, x = Except.ok a ∧ f a = Except.error e := by
  cases x with
  | error e1 =>
      left
      have h' : (Except.error e1 : Except Exn β) = Except.error e := h
      injection h' with he
      rw [he]
  | ok a =>
      right
      exact ⟨a, rfl, h⟩

/-- If the handler fails, the exception is one raised by an external call. -/
theorem handlerE_error_raises {o : Oracle} {env : PageEnv} {e : Exn}
    (h : request_handlerE o env = Except.error e) : OracleRaises o e := by
  unfold request_handlerE at h
  rcases bind_error_cases _ _ _ h with h1 | ⟨u1, h1, h⟩
  · exact Or.inr (Or.inl ⟨env, h1⟩)
  rcases bind_error_cases _ _ _ h with h2 | ⟨t, h2, h⟩
  · exact Or.inr (Or.inr (Or.inl ⟨env, h2⟩))
  rcases bind_error_cases _ _ _ h with h3 | ⟨c, h3, h⟩
  · exact Or.inr (Or.inr (Or.inr (Or.inl ⟨env, h3⟩)))
  rcases bind_error_cases _ _ _ h with h4 | ⟨u2, h4, h⟩
  · exact Or.inr (Or.inr (Or.inr (Or.inr (Or.inl ⟨_, h4⟩))))
  · exact absurd h (by simp [pure, Except.pure])

/-- If the crawl loop fails, the exception is one raised by an external call. -/
theorem runE_error_raises {o : Oracle} {e : Exn} :
    ∀ {pages : List PageEnv}, runE o pages = Except.error e → OracleRaises o e
  | [], h => absurd h (by simp [runE, pure, Except.pure])
  | env :: rest, h => by
      rw [runE] at h
      rcases bind_error_cases _ _ _ h with h1 | ⟨r, _, h⟩
      · exact handlerE_error_raises h1
      rcases bind_error_cases _ _ _ h with h2 | ⟨rs, _, h⟩
      · exact runE_error_raises h2
      · exact absurd h (by simp [pure, Except.pure])

/-- On an error-free oracle the handler succeeds. -/
theorem handlerE_ok {o : Oracle} (hok : OracleOk o) (env : PageEnv) :
    ∃ r, request_handlerE o env = Except.ok r := by
  obtain ⟨-, henq, htit, hcon, hpush, -, -⟩ := hok
  obtain ⟨u1, h1⟩ := henq env
  obtain ⟨t, h2⟩ := htit env
  obtain ⟨c, h3⟩ := hcon env
  obtain ⟨u2, h4⟩ := hpush [("url", env.url), ("title", t), ("content", c.take 100)]
  exact ⟨[("url", env.url), ("title", t), ("content", c.take 100)], by
    simp [request_handlerE, Bind.bind, Except.bind, h1, h2, h3, h4, pure, Except.pure]⟩

/-- On an error-free oracle the crawl loop succeeds. -/
theorem runE_ok {o : Oracle} (hok : OracleOk o) :
    ∀ pages : List PageEnv, ∃ rs, runE o pages = Except.ok rs
  | [] => ⟨[], rfl⟩
  | env :: rest => by
      obtain ⟨r, hr⟩ := handlerE_ok hok env
      obtain ⟨rs, hrs⟩ := runE_ok hok rest
      exact ⟨r :: rs, by
        simp [runE, Bind.bind, Except.bind, hr, hrs, pure, Except.pure]⟩

/-- If `main` fails, the exception is one raised by an external call. -/
theorem mainE_error_raises {o : Oracle} {pages : List PageEnv} {e : Exn}
    (h : mainE o pages = Except.error e) : OracleRaises o e := by
  unfold mainE at h
  rcases bind_error_cases _ _ _ h with h1 | ⟨u1, _, h⟩
  · exact Or.inl h1
  rcases bind_error_cases _ _ _ h with h2 | ⟨recs, _, h⟩
  · exact runE_error_raises h2
  rcases bind_error_cases _ _ _ h with h3 | ⟨u2, _, h⟩
  · exact Or.inr (Or.inr (Or.inr (Or.inr (Or.inr (Or.inl ⟨_, h3⟩)))))
  rcases bind_error_cases _ _ _ h with h4 | ⟨ds, _, h⟩
  · exact Or.inr (Or.inr (Or.inr (Or.inr (Or.inr (Or.inr ⟨_, h4⟩)))))
  · exact absurd h (by simp [pure, Except.pure])

/-- On an error-free oracle `main` succeeds. -/
theorem mainE_ok {o : Oracle} (hok : OracleOk o) (pages : List PageEnv) :
    mainE o pages = Except.ok () := by
  obtain ⟨rs, hrs⟩ := runE_ok hok pages
  obtain ⟨⟨u0, hc⟩, -, -, -, -, hexp, hget⟩ := hok
  obtain ⟨u1, h1⟩ := hexp rs
  obtain ⟨ds, h2⟩ := hget rs
  simp [mainE, Bind.bind, Except.bind, hc, hrs, h1, h2, pure, Except.pure]

/-! ## Claims -/

/-- Claim C1: every invocation of the request handler submits exactly one
record, and that record is a mapping with exactly the three fields url, title
and truncated content, each taken from the browser API's values for the page
(the request's url, the page's title, the page's content truncated to 100
characters). -/
theorem handler_pushes_one_three_field_record (env : PageEnv) :
    pushedRecords (request_handler env) = [extractedData env]
      ∧ extractedData env
          = [("url", env.url), ("title", env.title), ("content", env.content.take 100)]
      ∧ (extractedData env).map Prod.fst = ["url", "title", "content"] :=
  ⟨rfl, rfl, rfl⟩

/-- Claim C2: in every invocation the handler performs exactly three
externally-delegated operations, link enqueueing then title retrieval then
content retrieval, followed by exactly one externally-delegated write, the
record submission, in that order. -/
theorem handler_delegated_ops_in_order (env : PageEnv) :
    (request_handler env).filter isDelegated
        = [.enqueueLinks, .getTitle, .getContent, .pushData (extractedData env)]
      ∧ (request_handler env).filter isDelegatedWrite
          = [.pushData (extractedData env)] :=
  ⟨rfl, rfl⟩

/-- Claim C3: the top-level script executes its five steps strictly in
sequence (construct, register, run, export, read back); list position in
`mainTrace` encodes execution order, and the run step precedes the export
step, so the export never begins before the run has completed. -/
theorem main_steps_strictly_sequential :
    mainTrace
        = [ .constructCrawler crawlerArgs
          , .registerDefaultHandler
          , .runCrawler seedUrls
          , .exportData "results.json"
          , .getData
          , .logExtracted ]
      ∧ mainTrace.indexOf (.runCrawler seedUrls)
          < mainTrace.indexOf (.exportData "results.json") :=
  ⟨rfl, by decide⟩

/-- Claim C4: the handler is invoked once per crawled page (library contract,
modelled from the spec), and each invocation submits at most one record, never
two or more. -/
theorem handler_once_per_page_at_most_one_record (pages : List PageEnv) :
    (handlerInvocations pages).length = pages.length
      ∧ ∀ env : PageEnv, (pushedRecords (request_handler env)).length ≤ 1 :=
  ⟨List.length_map _ _, fun _ => Nat.le_refl 1⟩

/-- Claim C5: the crawler is constructed with exactly three configuration
values, the request cap, the headless flag and the browser choice, and the
script supplies no other argument. -/
theorem crawler_constructed_with_exactly_three_args :
    crawlerArgs
        = [.max_requests_per_crawl 5, .headless false, .browser_type "firefox"]
      ∧ crawlerArgs.map argName
          = ["max_requests_per_crawl", "headless", "browser_type"]
      ∧ crawlerArgs.length = 3 :=
  ⟨rfl, rfl, rfl⟩

/-- Claim C6: the script registers exactly one request handler on the crawler;
no other registration step occurs in `main`. -/
theorem exactly_one_handler_registration :
    (mainTrace.filter isHandlerRegistration).length = 1 :=
  rfl

/-- Claim C7: the configuration is consumed at construction and never mutated
afterwards: every state `main` passes through carries the constructed
configuration unchanged (the handler's operations touch only the dataset, as
`HandlerOp` records). -/
theorem config_never_mutated (pages : List PageEnv) (s : ScriptState)
    (hs : s ∈ mainStates pages) : s.config = mainConfig := by
  simp only [mainStates, List.mem_cons, List.not_mem_nil, or_false] at hs
  rcases hs with h | h | h <;> subst h <;> rfl

/-- Witness for C7 at the state reached after the run on an empty crawl. -/
theorem config_never_mutated_witness :
    stateAfterRun [] ∈ mainStates [] ∧ (stateAfterRun []).config = mainConfig :=
  ⟨by simp [mainStates], config_never_mutated [] (stateAfterRun []) (by simp [mainStates])⟩

/-- Claim C8: the script has no error-handling construct: any exception raised
by an external library call propagates unchanged to the caller of `main`
(every failure of `mainE` is an exception some external call raised), and when
no external call fails, `main` completes normally. -/
theorem main_propagates_exceptions (o : Oracle) (pages : List PageEnv) :
    (∀ e, mainE o pages = Except.error e → OracleRaises o e)
      ∧ (OracleOk o → mainE o pages = Except.ok ()) :=
  ⟨fun _ h => mainE_error_raises h, fun hok => mainE_ok hok pages⟩

/-- Witness for C8: on an oracle whose title call raises, `main` fails and the
propagated exception is one the oracle raised; on an error-free oracle `main`
succeeds. -/
theorem main_propagates_exceptions_witness :
    OracleRaises errTitleOracle (.mk "boom")
      ∧ mainE okOracle [⟨[], [], []⟩] = Except.ok () :=
  ⟨(main_propagates_exceptions errTitleOracle [⟨[], [], []⟩]).1 (.mk "boom") rfl,
   (main_propagates_exceptions okOracle [⟨[], [], []⟩]).2
     ⟨⟨(), rfl⟩, fun _ => ⟨(), rfl⟩, fun _ => ⟨[], rfl⟩, fun _ => ⟨[], rfl⟩,
      fun _ => ⟨(), rfl⟩, fun _ => ⟨(), rfl⟩, fun d => ⟨d, rfl⟩⟩⟩

/-- Claim C9: when the crawl reaches at least one page (a reachable seed URL),
the run followed by the export produces the `results.json` file holding the
dataset, and the dataset read back is non-empty. -/
theorem reachable_seed_produces_results (pages : List PageEnv)
    (h : pages ≠ []) :
    ("results.json", getData (stateAfterExport pages))
        ∈ (stateAfterExport pages).exportedFiles
      ∧ getData (stateAfterExport pages) ≠ [] := by
  constructor
  · simp [stateAfterExport, stateAfterRun, stateAfterConstruct, getData]
  · simpa [getData, stateAfterExport, stateAfterRun, stateAfterConstruct,
      runCrawl_eq_map] using h

/-- Witness for C9 on a crawl that reaches a single page. -/
theorem reachable_seed_produces_results_witness :
    ([(⟨[], [], []⟩ : PageEnv)] ≠ [])
      ∧ ("results.json", getData (stateAfterExport [⟨[], [], []⟩]))
          ∈ (stateAfterExport [⟨[], [], []⟩]).exportedFiles
      ∧ getData (stateAfterExport [⟨[], [], []⟩]) ≠ [] :=
  ⟨by decide, reachable_seed_produces_results [⟨[], [], []⟩] (by decide)⟩

/-- Claim C10: the content field of the submitted record is the
first-100-characters prefix of the page content: its length is at most 100,
and it equals the full content whenever that content has at most 100
characters. -/
theorem content_is_first_100_chars (env : PageEnv) :
    (extractedData env).lookup "content" = some (env.content.take 100)
      ∧ (env.content.take 100).length ≤ 100
      ∧ (env.content.length ≤ 100 → env.content.take 100 = env.content) := by
  refine ⟨rfl, ?_, fun h => List.take_of_length_le h⟩
  rw [List.length_take]
  exact Nat.min_le_left _ _

/-- Witness for C10 on a three-character content. -/
theorem content_is_first_100_chars_witness :
    "abc".data.take 100 = "abc".data :=
  (content_is_first_100_chars ⟨[], [], "abc".data⟩).2.2 (by decide)

end HomePageExample
